import Mathlib

/-!
# smt-switch: logging terms and Boolector terms

A shallow embedding of `src/src/logging_term.cpp` (class `LoggingTerm`) and of the
constructor of `BoolectorTerm` in `src/btor/include/boolector_term.h`, followed by
theorems about them.

Conventions of the embedding.

* `Term` is a `shared_ptr`; a possibly null `Term` is an `Option`, a term that is
  dereferenced is the object itself.  Children of a term are fixed at construction
  (a DAG), so a term is modelled as the finite tree of its fields.
* Member functions that write a field (`to_string` writes `repr`, also in the
  children it visits) return the result together with the object after the call.
* `Op`, `Sort`, `SortKind` and the class of the wrapped term are declared in headers
  that are not part of the sources at hand; they are type parameters, and their
  operations are the fields of `Env`.
-/

namespace smt

/-! ## LoggingTerm -/

/-- The fields of `class LoggingTerm`.  `Op`, `Srt` (the class `Sort`), and `W`, the class
of the wrapped term, are parameters.  `LoggingTerm::compare` casts its argument and,
through it, the children it meets to `LoggingTerm`, so children are logging terms. -/
structure LoggingTerm (Op Srt W : Type) where
  wrapped_term : W
  sort : Srt
  op : Op
  children : List (LoggingTerm Op Srt W)
  repr : String
  raw_repr : String
  is_sym : Bool
  is_par : Bool

/-- The operations `logging_term.cpp` calls on `Op`, on `Sort` and on the wrapped term.
`K` is `SortKind`.  The last six fields are the virtual member functions of the wrapped
term; `wrapped_term != lt->wrapped_term` is the `Term` operator, which calls `compare`. -/
structure Env (Op Srt K W : Type) where
  /-- `operator==` on `Op`; `operator!=` is its negation. -/
  op_eq : Op → Op → Bool
  /-- `Op::is_null`. -/
  op_is_null : Op → Bool
  /-- `Op::to_string`. -/
  op_to_string : Op → String
  /-- `operator==` on `Sort`; `operator!=` is its negation. -/
  sort_eq : Srt → Srt → Bool
  /-- `AbsSort::get_sort_kind`. -/
  get_sort_kind : Srt → K
  /-- The enumerator `FUNCTION` of `SortKind`. -/
  FUNCTION : K
  /-- `operator==` on `SortKind`. -/
  kind_eq : K → K → Bool
  compare : W → W → Bool
  hash : W → Nat
  is_value : W → Bool
  to_string : W → String
  /-- The wrapped `to_int`; `none` when it throws. -/
  to_int : W → Option Nat
  print_value_as : W → K → String

variable {Op Srt K W : Type}

/-- The constructor `LoggingTerm(Term t, Sort s, Op o, TermVec c)` (structural mode):
both strings start empty, both flags false. -/
def LoggingTerm.ctor (t : W) (s : Srt) (o : Op) (c : List (LoggingTerm Op Srt W)) :
    LoggingTerm Op Srt W :=
  ⟨t, s, o, c, "", "", false, false⟩

/-- The constructor `LoggingTerm(Term t, Sort s, Op o, TermVec c, string r, bool is_sym)`
(symbol mode): `repr(r)`, `is_sym(is_sym)`, `is_par(!is_sym)`. -/
def LoggingTerm.ctor_repr (t : W) (s : Srt) (o : Op) (c : List (LoggingTerm Op Srt W))
    (r : String) (is_sym : Bool) : LoggingTerm Op Srt W :=
  ⟨t, s, o, c, r, "", is_sym, !is_sym⟩

mutual
/-- The member `bool LoggingTerm::compare(const Term & t) const`, in the order of the source:
null test, operator, wrapped term and sort, sizes, then the children. -/
def LoggingTerm.compare (I : Env Op Srt K W) :
    LoggingTerm Op Srt W → Option (LoggingTerm Op Srt W) → Bool
  | _, none => false
  | ⟨w, s, o, c, _, _, _, _⟩, some ⟨w2, s2, o2, c2, _, _, _, _⟩ =>
    if !(I.op_eq o o2) then false
    else if !(I.compare w w2) || !(I.sort_eq s s2) then false
    else if c.length != c2.length then false
    else LoggingTerm.compare_children I c c2
/-- The loop `for (i = 0; i < children.size(); i++) if (children[i] != lt->children[i])
return false;` followed by `return true`.  It is entered with vectors of equal size,
which are walked in step; `children[i] != lt->children[i]` is the `Term` operator, which
calls `children[i]->compare(lt->children[i])`. -/
def LoggingTerm.compare_children (I : Env Op Srt K W) :
    List (LoggingTerm Op Srt W) → List (LoggingTerm Op Srt W) → Bool
  | a :: as, b :: bs =>
    if !(LoggingTerm.compare I a (some b)) then false
    else LoggingTerm.compare_children I as bs
  | _, _ => true
end

/-- The member `Op LoggingTerm::get_op() const`. -/
def LoggingTerm.get_op (t : LoggingTerm Op Srt W) : Op := t.op

/-- The member `Sort LoggingTerm::get_sort() const`. -/
def LoggingTerm.get_sort (t : LoggingTerm Op Srt W) : Srt := t.sort

/-- The member `size_t LoggingTerm::hash() const`: the hash of the wrapped term. -/
def LoggingTerm.hash (I : Env Op Srt K W) (t : LoggingTerm Op Srt W) : Nat :=
  I.hash t.wrapped_term

/-- The member `bool LoggingTerm::is_value() const`. -/
def LoggingTerm.is_value (I : Env Op Srt K W) (t : LoggingTerm Op Srt W) : Bool :=
  I.op_is_null t.op && I.is_value t.wrapped_term

/-- The member `bool LoggingTerm::is_symbol() const`. -/
def LoggingTerm.is_symbol (t : LoggingTerm Op Srt W) : Bool :=
  t.is_sym || t.is_par

/-- The member `bool LoggingTerm::is_param() const`. -/
def LoggingTerm.is_param (I : Env Op Srt K W) (t : LoggingTerm Op Srt W) : Bool :=
  I.op_is_null t.op && t.is_par

/-- The member `bool LoggingTerm::is_symbolic_const() const`. -/
def LoggingTerm.is_symbolic_const (I : Env Op Srt K W) (t : LoggingTerm Op Srt W) : Bool :=
  t.is_sym && !(I.kind_eq (I.get_sort_kind t.sort) I.FUNCTION)

/-- The member `uint64_t LoggingTerm::to_int() const`. -/
def LoggingTerm.to_int (I : Env Op Srt K W) (t : LoggingTerm Op Srt W) : Option Nat :=
  I.to_int t.wrapped_term

/-- The member `std::string LoggingTerm::print_value_as(SortKind sk)`. -/
def LoggingTerm.print_value_as (I : Env Op Srt K W) (t : LoggingTerm Op Srt W) (sk : K) :
    String :=
  I.print_value_as t.wrapped_term sk

/-- The member `string LoggingTerm::to_raw_string()`: the result and the term after the
call.  `raw_repr.empty()` is `raw_repr = ""`. -/
def LoggingTerm.to_raw_string (I : Env Op Srt K W) (t : LoggingTerm Op Srt W) :
    String × LoggingTerm Op Srt W :=
  if t.raw_repr ≠ "" then (t.raw_repr, t)
  else (I.to_string t.wrapped_term, { t with raw_repr := I.to_string t.wrapped_term })

/-- Modelled from the spec: the macro `Assert` of `utils.h`, which is not among the sources.
A violated assertion is a loud failure: the call does not return a value (`none`). -/
def Assert (cond : Bool) : Option Unit :=
  if cond then some () else none

mutual
/-- The member `string LoggingTerm::to_string()`: the returned string, or `none` when
`Assert(!op.is_null())` fails, and the term after the call.  `repr.empty()` is
`repr = ""`; the test `op.is_null() && is_value()` is written out with the body of
`is_value`. -/
def LoggingTerm.to_string (I : Env Op Srt K W) :
    LoggingTerm Op Srt W → Option String × LoggingTerm Op Srt W
  | ⟨w, s, o, c, repr, raw, sy, pa⟩ =>
    if repr ≠ "" then (some repr, ⟨w, s, o, c, repr, raw, sy, pa⟩)
    else if I.op_is_null o && (I.op_is_null o && I.is_value w) then
      (some (I.print_value_as w (I.get_sort_kind s)), ⟨w, s, o, c, repr, raw, sy, pa⟩)
    else
      match Assert (!(I.op_is_null o)) with
      | none => (none, ⟨w, s, o, c, repr, raw, sy, pa⟩)
      | some _ =>
        match LoggingTerm.to_string_children I c ("(" ++ I.op_to_string o) with
        | (true, r, c2) => (some (r ++ ")"), ⟨w, s, o, c2, r ++ ")", raw, sy, pa⟩)
        | (false, r, c2) => (none, ⟨w, s, o, c2, r, raw, sy, pa⟩)
/-- The loop `for (auto c : children) repr += " " + c->to_string();` started with `repr`
equal to the second argument: whether every call returned, `repr` after the loop, and
the children after the calls.  A call that fails ends the loop. -/
def LoggingTerm.to_string_children (I : Env Op Srt K W) :
    List (LoggingTerm Op Srt W) → String → Bool × String × List (LoggingTerm Op Srt W)
  | [], r => (true, r, [])
  | t :: ts, r =>
    match LoggingTerm.to_string I t with
    | (some s, t2) =>
      match LoggingTerm.to_string_children I ts (r ++ (" " ++ s)) with
      | (ok, r2, ts2) => (ok, r2, t2 :: ts2)
    | (none, t2) => (false, r, t2 :: ts)
end

/-- The text `" " + s_1 + ... + " " + s_n`: every string preceded by one space, in order. -/
def spaced : List String → String
  | [] => ""
  | s :: ss => (" " ++ s) ++ spaced ss

/-! ## LoggingTermIter -/

/-- The class `LoggingTermIter`: its field `it` is a `TermVec::iterator`, a position in a
vector; the vector it points into is kept next to the position. -/
structure LoggingTermIter (Op Srt W : Type) where
  vec : List (LoggingTerm Op Srt W)
  it : Nat

/-- The member `TermIter LoggingTerm::begin()`: an iterator at `children.begin()`. -/
def LoggingTerm.begin (t : LoggingTerm Op Srt W) : LoggingTermIter Op Srt W :=
  ⟨t.children, 0⟩

/-- The member `TermIter LoggingTerm::end()`: an iterator at `children.end()`, the
position after the last child. -/
def LoggingTerm.end_ (t : LoggingTerm Op Srt W) : LoggingTermIter Op Srt W :=
  ⟨t.children, t.children.length⟩

/-- The member `void LoggingTermIter::operator++()`, whose body is `it++`. -/
def LoggingTermIter.incr (i : LoggingTermIter Op Srt W) : LoggingTermIter Op Srt W :=
  { i with it := i.it + 1 }

/-- The member `const Term LoggingTermIter::operator*()`, whose body is `return *it`: the
term at the position, `none` at a position that is not in the vector (where `*it` is
undefined).  It writes nothing, so it returns the term only. -/
def LoggingTermIter.deref (i : LoggingTermIter Op Srt W) : Option (LoggingTerm Op Srt W) :=
  i.vec[i.it]?

/-- The member `bool LoggingTermIter::equal(const TermIterBase & other) const`, and
`operator==`: `it == lit.it`, for two iterators into the same vector the equality of
their positions. -/
def LoggingTermIter.equal (i j : LoggingTermIter Op Srt W) : Bool :=
  i.it == j.it

/-- The member `bool LoggingTermIter::operator!=(const LoggingTermIter & lit)`:
`it != lit.it`. -/
def LoggingTermIter.ne (i j : LoggingTermIter Op Srt W) : Bool :=
  i.it != j.it

/-! ## The recorded shape of a logging term -/

mutual
/-- The recorded shape of a logging term: the term with its two string caches, `repr` and
`raw_repr`, emptied, in the term and in the terms of its children list.  Two terms
with the same shape have the same wrapped term, sort, operator and flags, and children
lists of the same length holding, position by position, terms of the same shape. -/
def LoggingTerm.shape : LoggingTerm Op Srt W → LoggingTerm Op Srt W
  | ⟨w, s, o, c, _, _, sy, pa⟩ => ⟨w, s, o, LoggingTerm.shape_children c, "", "", sy, pa⟩
/-- The shapes of the terms of a children list, in order. -/
def LoggingTerm.shape_children :
    List (LoggingTerm Op Srt W) → List (LoggingTerm Op Srt W)
  | [] => []
  | t :: ts => LoggingTerm.shape t :: LoggingTerm.shape_children ts
end

/-! ## BoolectorTerm -/

/-- The fields of `class BoolectorTerm`, apart from `btor`, the pointer to the solver
instance shared by all terms: the state of the instance is passed to the functions that
read or write it.  `Node` is `BoolectorNode *`.  The constructor casts the children to
`BoolectorTerm`, so children are Boolector terms. -/
structure BoolectorTerm (Node Op : Type) where
  node : Node
  children : List (BoolectorTerm Node Op)
  op : Op
  is_sym : Bool

/-- What the constructor of `BoolectorTerm` calls: three functions of the Boolector
library on the solver state `B`, `Op::to_string`, and `BoolectorTerm::to_string`, whose
body is not in the header.  `boolector_get_symbol` gives `none` for a null pointer. -/
structure BtorEnv (B Node Op : Type) where
  boolector_get_node_id : B → Node → Int
  boolector_get_symbol : B → Node → Option String
  boolector_set_symbol : B → Node → String → B
  op_to_string : Op → String
  to_string : B → BoolectorTerm Node Op → String

variable {B Node : Type}

/-- The loop `for (auto t : c)` of the constructor, on the pair of the object under
construction and the parameter `is_sym`.  In the body the name `is_sym` is the
parameter, which hides the member: `is_sym = bt->is_sym` writes the parameter, while
`node`, `children` and `op` are members (the parameters are `n`, `c`, `o`).  There is no
`break`: every child is visited. -/
def BoolectorTerm.ctor_loop (E : BtorEnv B Node Op) (b : B) (n : Node) :
    List (BoolectorTerm Node Op) → BoolectorTerm Node Op × Bool →
      BoolectorTerm Node Op × Bool
  | [], st => st
  | bt :: rest, (self, is_sym) =>
    if E.boolector_get_node_id b n == E.boolector_get_node_id b bt.node then
      BoolectorTerm.ctor_loop E b n rest (⟨bt.node, bt.children, bt.op, self.is_sym⟩, bt.is_sym)
    else BoolectorTerm.ctor_loop E b n rest (self, is_sym)

/-- The string `btor_node_repr` of the constructor: `"("`, then `op.to_string()` of the
member `op`, then `" " + t->to_string()` for every `t` of the parameter `c`, then `")"`. -/
def BoolectorTerm.btor_node_repr (E : BtorEnv B Node Op) (b : B) (op : Op)
    (c : List (BoolectorTerm Node Op)) : String :=
  c.foldl (fun r t => r ++ (" " ++ E.to_string b t)) ("(" ++ E.op_to_string op) ++ ")"

/-- The constructor `BoolectorTerm(Btor * b, BoolectorNode * n, std::vector<Term> c, Op o,
bool is_sym)`: the constructed object and the solver state after the call.  The members
are initialised from the parameters, the loop runs, and the symbol of `n` is set when `c`
is not empty and `n` has no symbol. -/
def BoolectorTerm.ctor (E : BtorEnv B Node Op) (b : B) (n : Node)
    (c : List (BoolectorTerm Node Op)) (o : Op) (is_sym : Bool) :
    BoolectorTerm Node Op × B :=
  let self := (BoolectorTerm.ctor_loop E b n c (⟨n, c, o, is_sym⟩, is_sym)).1
  if c.length ≠ 0 ∧ E.boolector_get_symbol b n = none then
    (self, E.boolector_set_symbol b n (BoolectorTerm.btor_node_repr E b self.op c))
  else (self, b)

/-! ## Concrete instances, used to evaluate the definitions -/

/-- A term of an underlying solver: the number of its node and, for a value, its literal. -/
structure ExTerm where
  id : Nat
  value : Option String

/-- An environment over `ExTerm`.  An operator is its name, `none` being the null operator;
a sort is a pair of a kind and a width; kinds are numbered as in `enum SortKind`
(`BV` is 2, `FUNCTION` is 5).  Wrapped terms are compared and hashed by node number. -/
def exEnv : Env (Option String) (Nat × Nat) Nat ExTerm where
  op_eq a b := a == b
  op_is_null o := o.isNone
  op_to_string o := o.getD ""
  sort_eq a b := a == b
  get_sort_kind s := s.1
  FUNCTION := 5
  kind_eq a b := a == b
  compare a b := a.id == b.id
  hash a := a.id
  is_value a := a.value.isSome
  to_string a := a.value.getD "node"
  to_int _ := none
  print_value_as a _ := a.value.getD ""

/-- The symbol `x` of sort bit-vector of width 8, built in symbol mode. -/
def ex_x : LoggingTerm (Option String) (Nat × Nat) ExTerm :=
  LoggingTerm.ctor_repr ⟨1, none⟩ (2, 8) none [] "x" true

/-- The symbol `y` of sort bit-vector of width 8, built in symbol mode. -/
def ex_y : LoggingTerm (Option String) (Nat × Nat) ExTerm :=
  LoggingTerm.ctor_repr ⟨2, none⟩ (2, 8) none [] "y" true

/-- The term `AND(x, y)` built in structural mode on the solver node 3. -/
def ex_and : LoggingTerm (Option String) (Nat × Nat) ExTerm :=
  LoggingTerm.ctor ⟨3, none⟩ (2, 8) (some "and") [ex_x, ex_y]

/-- The term `AND(x, y)` built in structural mode on another solver node, 4. -/
def ex_and4 : LoggingTerm (Option String) (Nat × Nat) ExTerm :=
  LoggingTerm.ctor ⟨4, none⟩ (2, 8) (some "and") [ex_x, ex_y]

/-- The value 5 of sort bit-vector of width 8: null operator, no children, no
representation given, wrapped term a value. -/
def ex_five : LoggingTerm (Option String) (Nat × Nat) ExTerm :=
  LoggingTerm.ctor ⟨5, some "#b00000101"⟩ (2, 8) none []

/-- A Boolector instance whose state is the table of symbols.  A node is its number, which
is also its id; the negation of node `k` is node `-k`.  A term prints as the symbol of
its node. -/
def exBtor : BtorEnv (Int → Option String) Int (Option String) where
  boolector_get_node_id _ n := n
  boolector_get_symbol b n := b n
  boolector_set_symbol b n s := fun m => if m = n then some s else b m
  op_to_string o := o.getD ""
  to_string b t := (b t.node).getD ""

/-- The state in which nodes 1 and 2 are the variables `x` and `y`. -/
def exSymbols : Int → Option String :=
  fun n => if n = 1 then some "x" else if n = 2 then some "y" else none

/-- The variable `x`, on node 1. -/
def bt_x : BoolectorTerm Int (Option String) := ⟨1, [], none, true⟩

/-- The variable `y`, on node 2. -/
def bt_y : BoolectorTerm Int (Option String) := ⟨2, [], none, true⟩

/-- The term `NOT(x)`, on node -1. -/
def bt_not_x : BoolectorTerm Int (Option String) := ⟨-1, [bt_x], some "not", false⟩

/-- The term `AND(x, y)`, on node 3. -/
def bt_and_xy : BoolectorTerm Int (Option String) := ⟨3, [bt_x, bt_y], some "and", false⟩

/-- The term `AND(y, x)`, for which the solver returned node 3 again. -/
def bt_and_yx : BoolectorTerm Int (Option String) := ⟨3, [bt_y, bt_x], some "and", false⟩

/-- A term with a null operator, no representation and a wrapped term that is no value. -/
def ex_broken : LoggingTerm (Option String) (Nat × Nat) ExTerm :=
  LoggingTerm.ctor ⟨8, none⟩ (2, 8) none []

/-- The instance `exBtor` in which the null operator prints as `null` and a term whose
node has no symbol prints as `5`, the constant on that node. -/
def exBtorConst : BtorEnv (Int → Option String) Int (Option String) where
  boolector_get_node_id _ n := n
  boolector_get_symbol b n := b n
  boolector_set_symbol b n s := fun m => if m = n then some s else b m
  op_to_string o := o.getD "null"
  to_string b t := (b t.node).getD "5"

/-- The constant 5, on node 7, which has no symbol. -/
def bt_five : BoolectorTerm Int (Option String) := ⟨7, [], none, false⟩

/-! ## Facts about `compare` -/

theorem LoggingTerm.compare_none (I : Env Op Srt K W) (a : LoggingTerm Op Srt W) :
    LoggingTerm.compare I a none = false := by
  cases a
  simp [LoggingTerm.compare]

theorem LoggingTerm.compare_some (I : Env Op Srt K W) (a b : LoggingTerm Op Srt W) :
    LoggingTerm.compare I a (some b) =
      (I.op_eq a.op b.op && (I.compare a.wrapped_term b.wrapped_term &&
        (I.sort_eq a.sort b.sort && (decide (a.children.length = b.children.length) &&
          LoggingTerm.compare_children I a.children b.children)))) := by
  cases a
  cases b
  simp only [LoggingTerm.compare]
  cases I.op_eq _ _ <;> cases I.compare _ _ <;> cases I.sort_eq _ _ <;> simp

theorem LoggingTerm.compare_children_iff (I : Env Op Srt K W) :
    ∀ (c c2 : List (LoggingTerm Op Srt W)), c.length = c2.length →
      (LoggingTerm.compare_children I c c2 = true ↔
        ∀ (i : Nat) (h1 : i < c.length) (h2 : i < c2.length),
          LoggingTerm.compare I (c.get ⟨i, h1⟩) (some (c2.get ⟨i, h2⟩)) = true)
  | [], [], _ => by simp [LoggingTerm.compare_children]
  | [], _ :: _, h => by simp at h
  | _ :: _, [], h => by simp at h
  | a :: as, b :: bs, h => by
    have ih := LoggingTerm.compare_children_iff I as bs (by simpa using h)
    simp only [LoggingTerm.compare_children]
    constructor
    · intro hc i h1 h2
      cases hab : LoggingTerm.compare I a (some b)
      · simp [hab] at hc
      · simp only [hab] at hc
        cases i with
        | zero => simpa using hab
        | succ j => simpa using ih.1 (by simpa using hc) j (by simpa using h1) (by simpa using h2)
    · intro hall
      have h0 := hall 0 (by simp) (by simp)
      simp only [List.get_eq_getElem, List.getElem_cons_zero] at h0
      simp only [h0, Bool.not_true, Bool.false_eq_true, if_false]
      refine ih.2 ?_
      intro i h1 h2
      simpa using hall (i + 1) (by simpa using h1) (by simpa using h2)

theorem LoggingTerm.compare_children_cons (I : Env Op Srt K W)
    (a b : LoggingTerm Op Srt W) (as bs : List (LoggingTerm Op Srt W)) :
    LoggingTerm.compare_children I (a :: as) (b :: bs)
      = (LoggingTerm.compare I a (some b) && LoggingTerm.compare_children I as bs) := by
  simp only [LoggingTerm.compare_children]
  cases LoggingTerm.compare I a (some b) <;> simp

mutual
theorem LoggingTerm.compare_refl (I : Env Op Srt K W)
    (hor : ∀ o, I.op_eq o o = true) (hsr : ∀ s, I.sort_eq s s = true)
    (hwr : ∀ w, I.compare w w = true) :
    ∀ a : LoggingTerm Op Srt W, LoggingTerm.compare I a (some a) = true
  | ⟨w, s, o, c, r, raw, sy, pa⟩ => by
    rw [LoggingTerm.compare_some]
    simp [hor, hsr, hwr, LoggingTerm.compare_children_refl I hor hsr hwr c]
theorem LoggingTerm.compare_children_refl (I : Env Op Srt K W)
    (hor : ∀ o, I.op_eq o o = true) (hsr : ∀ s, I.sort_eq s s = true)
    (hwr : ∀ w, I.compare w w = true) :
    ∀ c : List (LoggingTerm Op Srt W), LoggingTerm.compare_children I c c = true
  | [] => by simp [LoggingTerm.compare_children]
  | a :: as => by
    rw [LoggingTerm.compare_children_cons]
    simp [LoggingTerm.compare_refl I hor hsr hwr a,
      LoggingTerm.compare_children_refl I hor hsr hwr as]
end

mutual
theorem LoggingTerm.compare_symm (I : Env Op Srt K W)
    (hos : ∀ o o2, I.op_eq o o2 = true → I.op_eq o2 o = true)
    (hss : ∀ s s2, I.sort_eq s s2 = true → I.sort_eq s2 s = true)
    (hws : ∀ w w2, I.compare w w2 = true → I.compare w2 w = true) :
    ∀ a b : LoggingTerm Op Srt W, LoggingTerm.compare I a (some b) = true →
      LoggingTerm.compare I b (some a) = true
  | ⟨w, s, o, c, r, raw, sy, pa⟩, ⟨w2, s2, o2, c2, r2, raw2, sy2, pa2⟩, h => by
    rw [LoggingTerm.compare_some] at h ⊢
    simp only [Bool.and_eq_true, decide_eq_true_eq] at h ⊢
    exact ⟨hos _ _ h.1, hws _ _ h.2.1, hss _ _ h.2.2.1, h.2.2.2.1.symm,
      LoggingTerm.compare_children_symm I hos hss hws c c2 h.2.2.2.2⟩
theorem LoggingTerm.compare_children_symm (I : Env Op Srt K W)
    (hos : ∀ o o2, I.op_eq o o2 = true → I.op_eq o2 o = true)
    (hss : ∀ s s2, I.sort_eq s s2 = true → I.sort_eq s2 s = true)
    (hws : ∀ w w2, I.compare w w2 = true → I.compare w2 w = true) :
    ∀ c c2 : List (LoggingTerm Op Srt W), LoggingTerm.compare_children I c c2 = true →
      LoggingTerm.compare_children I c2 c = true
  | [], [], _ => by simp [LoggingTerm.compare_children]
  | [], _ :: _, _ => by simp [LoggingTerm.compare_children]
  | _ :: _, [], _ => by simp [LoggingTerm.compare_children]
  | a :: as, b :: bs, h => by
    rw [LoggingTerm.compare_children_cons] at h ⊢
    simp only [Bool.and_eq_true] at h ⊢
    exact ⟨LoggingTerm.compare_symm I hos hss hws a b h.1,
      LoggingTerm.compare_children_symm I hos hss hws as bs h.2⟩
end

mutual
theorem LoggingTerm.compare_trans (I : Env Op Srt K W)
    (hot : ∀ o o2 o3, I.op_eq o o2 = true → I.op_eq o2 o3 = true → I.op_eq o o3 = true)
    (hst : ∀ s s2 s3, I.sort_eq s s2 = true → I.sort_eq s2 s3 = true → I.sort_eq s s3 = true)
    (hwt : ∀ w w2 w3, I.compare w w2 = true → I.compare w2 w3 = true → I.compare w w3 = true) :
    ∀ a b d : LoggingTerm Op Srt W, LoggingTerm.compare I a (some b) = true →
      LoggingTerm.compare I b (some d) = true → LoggingTerm.compare I a (some d) = true
  | ⟨w, s, o, c, r, raw, sy, pa⟩, ⟨w2, s2, o2, c2, r2, raw2, sy2, pa2⟩,
      ⟨w3, s3, o3, c3, r3, raw3, sy3, pa3⟩, h, h2 => by
    rw [LoggingTerm.compare_some] at h h2 ⊢
    simp only [Bool.and_eq_true, decide_eq_true_eq] at h h2 ⊢
    exact ⟨hot _ _ _ h.1 h2.1, hwt _ _ _ h.2.1 h2.2.1, hst _ _ _ h.2.2.1 h2.2.2.1,
      h.2.2.2.1.trans h2.2.2.2.1,
      LoggingTerm.compare_children_trans I hot hst hwt c c2 c3 h.2.2.2.1 h.2.2.2.2 h2.2.2.2.2⟩
theorem LoggingTerm.compare_children_trans (I : Env Op Srt K W)
    (hot : ∀ o o2 o3, I.op_eq o o2 = true → I.op_eq o2 o3 = true → I.op_eq o o3 = true)
    (hst : ∀ s s2 s3, I.sort_eq s s2 = true → I.sort_eq s2 s3 = true → I.sort_eq s s3 = true)
    (hwt : ∀ w w2 w3, I.compare w w2 = true → I.compare w2 w3 = true → I.compare w w3 = true) :
    ∀ c c2 c3 : List (LoggingTerm Op Srt W), c.length = c2.length →
      LoggingTerm.compare_children I c c2 = true →
      LoggingTerm.compare_children I c2 c3 = true →
      LoggingTerm.compare_children I c c3 = true
  | [], _, _, _, _, _ => by simp [LoggingTerm.compare_children]
  | _ :: _, [], _, hl, _, _ => by simp at hl
  | _ :: _, _ :: _, [], _, _, _ => by simp [LoggingTerm.compare_children]
  | a :: as, b :: bs, d :: ds, hl, h, h2 => by
    rw [LoggingTerm.compare_children_cons] at h h2 ⊢
    simp only [Bool.and_eq_true] at h h2 ⊢
    exact ⟨LoggingTerm.compare_trans I hot hst hwt a b d h.1 h2.1,
      LoggingTerm.compare_children_trans I hot hst hwt as bs ds (by simpa using hl) h.2 h2.2⟩
end

/-! ## Facts about the loop of the `BoolectorTerm` constructor -/

theorem BoolectorTerm.ctor_loop_no_match (E : BtorEnv B Node Op) (b : B) (n : Node) :
    ∀ (c : List (BoolectorTerm Node Op)) (st : BoolectorTerm Node Op × Bool),
      (∀ u ∈ c, E.boolector_get_node_id b u.node ≠ E.boolector_get_node_id b n) →
      BoolectorTerm.ctor_loop E b n c st = st
  | [], st, _ => by simp [BoolectorTerm.ctor_loop]
  | u :: rest, (self, p), h => by
    have hu : E.boolector_get_node_id b n ≠ E.boolector_get_node_id b u.node :=
      fun e => h u (by simp) e.symm
    have ih := BoolectorTerm.ctor_loop_no_match E b n rest (self, p)
      (fun v hv => h v (by simp [hv]))
    simp [BoolectorTerm.ctor_loop, hu, ih]

theorem BoolectorTerm.ctor_loop_last_match (E : BtorEnv B Node Op) (b : B) (n : Node)
    (t : BoolectorTerm Node Op) (post : List (BoolectorTerm Node Op))
    (ht : E.boolector_get_node_id b t.node = E.boolector_get_node_id b n)
    (hpost : ∀ u ∈ post, E.boolector_get_node_id b u.node ≠ E.boolector_get_node_id b n) :
    ∀ (pre : List (BoolectorTerm Node Op)) (st : BoolectorTerm Node Op × Bool),
      BoolectorTerm.ctor_loop E b n (pre ++ t :: post) st =
        (⟨t.node, t.children, t.op, st.1.is_sym⟩, t.is_sym)
  | [], (self, p) => by
    simp [BoolectorTerm.ctor_loop, ht, BoolectorTerm.ctor_loop_no_match E b n post _ hpost]
  | u :: pre, (self, p) => by
    simp only [List.cons_append, BoolectorTerm.ctor_loop]
    split
    · exact BoolectorTerm.ctor_loop_last_match E b n t post ht hpost pre _
    · exact BoolectorTerm.ctor_loop_last_match E b n t post ht hpost pre _

theorem List.exists_last_of_exists {α : Type} (P : α → Prop) :
    ∀ (c : List α), (∃ t ∈ c, P t) →
      ∃ pre t post, c = pre ++ t :: post ∧ P t ∧ ∀ u ∈ post, ¬ P u
  | [], h => by simp at h
  | a :: as, h => by
    by_cases hex : ∃ t ∈ as, P t
    · obtain ⟨pre, t, post, hc, ht, hpost⟩ := List.exists_last_of_exists P as hex
      exact ⟨a :: pre, t, post, by simp [hc], ht, hpost⟩
    · obtain ⟨t, htm, ht⟩ := h
      have hta : t = a := by
        rcases List.mem_cons.1 htm with e | e
        · exact e
        · exact absurd ⟨t, e, ht⟩ hex
      refine ⟨[], a, as, by simp, hta ▸ ht, ?_⟩
      intro u hu hPu
      exact hex ⟨u, hu, hPu⟩

theorem BoolectorTerm.ctor_fst (E : BtorEnv B Node Op) (b : B) (n : Node)
    (c : List (BoolectorTerm Node Op)) (o : Op) (is_sym : Bool) :
    (BoolectorTerm.ctor E b n c o is_sym).1 =
      (BoolectorTerm.ctor_loop E b n c (⟨n, c, o, is_sym⟩, is_sym)).1 := by
  unfold BoolectorTerm.ctor
  split <;> rfl

theorem BoolectorTerm.foldl_spaced (f : BoolectorTerm Node Op → String) :
    ∀ (c : List (BoolectorTerm Node Op)) (r : String),
      c.foldl (fun r t => r ++ (" " ++ f t)) r = r ++ spaced (c.map f)
  | [], r => by simp [spaced]
  | t :: ts, r => by
    simp [spaced, BoolectorTerm.foldl_spaced f ts, String.append_assoc]

theorem BoolectorTerm.btor_node_repr_eq (E : BtorEnv B Node Op) (b : B) (op : Op)
    (c : List (BoolectorTerm Node Op)) :
    BoolectorTerm.btor_node_repr E b op c
      = "(" ++ E.op_to_string op ++ spaced (c.map (E.to_string b)) ++ ")" := by
  simp [BoolectorTerm.btor_node_repr, BoolectorTerm.foldl_spaced]

theorem BoolectorTerm.ctor_no_match (E : BtorEnv B Node Op) (b : B) (n : Node)
    (c : List (BoolectorTerm Node Op)) (o : Op) (is_sym : Bool)
    (hno : ∀ u ∈ c, E.boolector_get_node_id b u.node ≠ E.boolector_get_node_id b n) :
    (BoolectorTerm.ctor E b n c o is_sym).1 = ⟨n, c, o, is_sym⟩ := by
  rw [BoolectorTerm.ctor_fst, BoolectorTerm.ctor_loop_no_match E b n c _ hno]

/-! ## Facts about `to_string` -/

theorem String.append_paren_ne_empty (r : String) : r ++ ")" ≠ "" := by
  intro h
  have hl := congrArg String.length h
  simp at hl
  exact absurd hl.2 (by decide)

theorem LoggingTerm.to_string_cached (I : Env Op Srt K W) (t : LoggingTerm Op Srt W)
    (h : t.repr ≠ "") : LoggingTerm.to_string I t = (some t.repr, t) := by
  cases t
  simp only [] at h
  simp [LoggingTerm.to_string, h]

theorem LoggingTerm.to_string_value (I : Env Op Srt K W) (t : LoggingTerm Op Srt W)
    (hr : t.repr = "") (hop : I.op_is_null t.op = true)
    (hv : I.is_value t.wrapped_term = true) :
    LoggingTerm.to_string I t
      = (some (I.print_value_as t.wrapped_term (I.get_sort_kind t.sort)), t) := by
  cases t
  simp only [] at hr hop hv
  simp [LoggingTerm.to_string, hr, hop, hv]

theorem LoggingTerm.to_string_children_ok (I : Env Op Srt K W) :
    ∀ (c : List (LoggingTerm Op Srt W)) (ss : List String),
      List.Forall₂ (fun ch str => (LoggingTerm.to_string I ch).1 = some str) c ss →
      ∀ r : String, LoggingTerm.to_string_children I c r
        = (true, r ++ spaced ss, c.map (fun ch => (LoggingTerm.to_string I ch).2))
  | [], _, h, r => by
    cases h
    simp [LoggingTerm.to_string_children, spaced]
  | ch :: c, _, h, r => by
    cases h with
    | cons h1 h2 =>
      have ih := LoggingTerm.to_string_children_ok I c _ h2
      rw [LoggingTerm.to_string_children]
      rcases hts : LoggingTerm.to_string I ch with ⟨res, t2⟩
      rw [hts] at h1
      simp only [] at h1
      subst h1
      simp [ih, spaced, String.append_assoc, hts]

/-! ## Facts about the recorded shape -/

mutual
theorem LoggingTerm.to_string_shape (I : Env Op Srt K W) :
    ∀ t : LoggingTerm Op Srt W, LoggingTerm.shape (LoggingTerm.to_string I t).2
      = LoggingTerm.shape t
  | ⟨w, s, o, c, repr, raw, sy, pa⟩ => by
    have ih := LoggingTerm.to_string_children_shape I c ("(" ++ I.op_to_string o)
    simp only [LoggingTerm.to_string]
    split
    · rfl
    · split
      · rfl
      · split
        · rfl
        · split
          · rename_i r c2 hch
            rw [hch] at ih
            simp only [LoggingTerm.shape]
            rw [ih]
          · rename_i r c2 hch
            rw [hch] at ih
            simp only [LoggingTerm.shape]
            rw [ih]
theorem LoggingTerm.to_string_children_shape (I : Env Op Srt K W) :
    ∀ (c : List (LoggingTerm Op Srt W)) (r : String),
      LoggingTerm.shape_children (LoggingTerm.to_string_children I c r).2.2
        = LoggingTerm.shape_children c
  | [], r => by simp [LoggingTerm.to_string_children]
  | t :: ts, r => by
    have ih1 := LoggingTerm.to_string_shape I t
    simp only [LoggingTerm.to_string_children]
    split
    · rename_i str t2 hts
      rw [hts] at ih1
      have ih2 := LoggingTerm.to_string_children_shape I ts (r ++ (" " ++ str))
      simp only [LoggingTerm.shape_children]
      rw [ih1, ih2]
    · rename_i t2 hts
      rw [hts] at ih1
      simp only [LoggingTerm.shape_children]
      rw [ih1]
end

theorem LoggingTerm.shape_children_length :
    ∀ c : List (LoggingTerm Op Srt W), (LoggingTerm.shape_children c).length = c.length
  | [] => by simp [LoggingTerm.shape_children]
  | _ :: ts => by simp [LoggingTerm.shape_children, LoggingTerm.shape_children_length ts]

theorem LoggingTerm.shape_fields (a b : LoggingTerm Op Srt W)
    (h : LoggingTerm.shape a = LoggingTerm.shape b) :
    a.wrapped_term = b.wrapped_term ∧ a.sort = b.sort ∧ a.op = b.op ∧
    a.is_sym = b.is_sym ∧ a.is_par = b.is_par ∧ a.children.length = b.children.length := by
  obtain ⟨w, s, o, c, r, raw, sy, pa⟩ := a
  obtain ⟨w2, s2, o2, c2, r2, raw2, sy2, pa2⟩ := b
  simp only [LoggingTerm.shape, LoggingTerm.mk.injEq, and_true, true_and] at h
  obtain ⟨h1, h2, h3, h4, h5, h6⟩ := h
  refine ⟨h1, h2, h3, h5, h6, ?_⟩
  have hl := congrArg List.length h4
  simpa [LoggingTerm.shape_children_length] using hl

theorem LoggingTermIter.iterate_incr (i : LoggingTermIter Op Srt W) (k : Nat) :
    LoggingTermIter.incr^[k] i = ⟨i.vec, i.it + k⟩ := by
  induction k generalizing i with
  | zero => rfl
  | succ k ih =>
    rw [Function.iterate_succ_apply, ih]
    simp [LoggingTermIter.incr, Nat.add_assoc, Nat.add_comm 1 k]

/-! ## Equality and hashing of logging terms -/

/-- C1. `LoggingTerm::compare(t)` is true exactly when `t` is not null, the operators are
equal, the wrapped terms are equal and the sorts are equal, the children lists have the
same length and `children[i]` equals `t`'s `children[i]` for every index `i`; against a
null term it returns false (it is a total function: it never fails). -/
theorem C1_compare_iff (I : Env Op Srt K W) (a : LoggingTerm Op Srt W)
    (t : Option (LoggingTerm Op Srt W)) :
    (LoggingTerm.compare I a t = true ↔
      ∃ b, t = some b ∧ I.op_eq a.op b.op = true ∧
        (I.compare a.wrapped_term b.wrapped_term = true ∧ I.sort_eq a.sort b.sort = true) ∧
        a.children.length = b.children.length ∧
        ∀ (i : Nat) (h1 : i < a.children.length) (h2 : i < b.children.length),
          LoggingTerm.compare I (a.children.get ⟨i, h1⟩) (some (b.children.get ⟨i, h2⟩)) = true)
    ∧ LoggingTerm.compare I a none = false := by
  refine ⟨?_, LoggingTerm.compare_none I a⟩
  cases t with
  | none => simp [LoggingTerm.compare_none]
  | some b =>
    rw [LoggingTerm.compare_some]
    simp only [Bool.and_eq_true, decide_eq_true_eq, Option.some.injEq, exists_eq_left']
    constructor
    · rintro ⟨h1, h2, h3, h4, h5⟩
      exact ⟨h1, ⟨h2, h3⟩, h4, (LoggingTerm.compare_children_iff I _ _ h4).1 h5⟩
    · rintro ⟨h1, ⟨h2, h3⟩, h4, h5⟩
      exact ⟨h1, h2, h3, h4, (LoggingTerm.compare_children_iff I _ _ h4).2 h5⟩

/-- C2. If the compare of the wrapped terms implies equal hashes, then for logging terms
`a` and `b`, `a.compare(b)` true implies `a.hash() == b.hash()`. -/
theorem C2_hash_consistent (I : Env Op Srt K W)
    (hW : ∀ w w2 : W, I.compare w w2 = true → I.hash w = I.hash w2)
    (a b : LoggingTerm Op Srt W) (h : LoggingTerm.compare I a (some b) = true) :
    LoggingTerm.hash I a = LoggingTerm.hash I b := by
  rw [LoggingTerm.compare_some] at h
  simp only [Bool.and_eq_true] at h
  exact hW _ _ h.2.1

/-- Witness of C2: `AND(x, y)` compared with itself. -/
theorem C2_hash_consistent_witness :
    LoggingTerm.compare exEnv ex_and (some ex_and) = true ∧
      LoggingTerm.hash exEnv ex_and = LoggingTerm.hash exEnv ex_and :=
  ⟨by decide,
    C2_hash_consistent exEnv
      (by intro w w2 h; simpa [exEnv] using h) ex_and ex_and (by decide)⟩

/-- Counterexample to C3: `AND(x, y)` built twice in structural mode with the same operator,
the same sort and the same children, on two solver nodes that do not compare equal, gives
two logging terms that do not compare equal. -/
theorem C3_congruence_counterexample :
    LoggingTerm.compare exEnv ex_x (some ex_x) = true ∧
    LoggingTerm.compare exEnv ex_y (some ex_y) = true ∧
    LoggingTerm.compare exEnv
      (LoggingTerm.ctor ⟨3, none⟩ (2, 8) (some "and") [ex_x, ex_y])
      (some (LoggingTerm.ctor ⟨4, none⟩ (2, 8) (some "and") [ex_x, ex_y])) = false := by
  decide

/-- C3, amended.  For an operator and a sort that are equal to themselves and two children
lists of equal length whose elements are pairwise equal under compare, the logging terms
built in structural mode compare equal exactly when their wrapped terms compare equal. -/
theorem C3_congruence_amended (I : Env Op Srt K W) (op : Op) (s : Srt)
    (c1 c2 : List (LoggingTerm Op Srt W)) (w1 w2 : W)
    (hop : I.op_eq op op = true) (hs : I.sort_eq s s = true)
    (hlen : c1.length = c2.length)
    (hc : ∀ (i : Nat) (h1 : i < c1.length) (h2 : i < c2.length),
      LoggingTerm.compare I (c1.get ⟨i, h1⟩) (some (c2.get ⟨i, h2⟩)) = true) :
    LoggingTerm.compare I (LoggingTerm.ctor w1 s op c1) (some (LoggingTerm.ctor w2 s op c2))
      = I.compare w1 w2 := by
  rw [LoggingTerm.compare_some]
  simp [LoggingTerm.ctor, hop, hs, hlen, (LoggingTerm.compare_children_iff I c1 c2 hlen).2 hc]

/-- Witness of C3, amended: `AND(x, y)` built twice on the same solver node. -/
theorem C3_congruence_amended_witness :
    LoggingTerm.compare exEnv
      (LoggingTerm.ctor ⟨3, none⟩ (2, 8) (some "and") [ex_x, ex_y])
      (some (LoggingTerm.ctor ⟨3, none⟩ (2, 8) (some "and") [ex_x, ex_y]))
      = exEnv.compare ⟨3, none⟩ ⟨3, none⟩ :=
  C3_congruence_amended exEnv (some "and") (2, 8) [ex_x, ex_y] [ex_x, ex_y] ⟨3, none⟩ ⟨3, none⟩
    (by decide) (by decide) rfl
    (by
      intro i h1 h2
      have hi : i < 2 := h1
      interval_cases i <;> rfl)

/-! ## Construction of Boolector terms -/

/-- C4. If some child of `c` has the same node id as `n`, the constructed term's op,
children and node are those of a child of `c` whose node id equals that of `n`; and when
all the children with that node id are one and the same term `t` (in particular when
exactly one child has that id), they are those of `t`. -/
theorem C4_rewrite_absorption (E : BtorEnv B Node Op) (b : B) (n : Node)
    (c : List (BoolectorTerm Node Op)) (o : Op) (is_sym : Bool)
    (h : ∃ t ∈ c, E.boolector_get_node_id b t.node = E.boolector_get_node_id b n) :
    (∃ t ∈ c, E.boolector_get_node_id b t.node = E.boolector_get_node_id b n ∧
      (BoolectorTerm.ctor E b n c o is_sym).1.op = t.op ∧
      (BoolectorTerm.ctor E b n c o is_sym).1.children = t.children ∧
      (BoolectorTerm.ctor E b n c o is_sym).1.node = t.node) ∧
    (∀ t ∈ c, E.boolector_get_node_id b t.node = E.boolector_get_node_id b n →
      (∀ u ∈ c, E.boolector_get_node_id b u.node = E.boolector_get_node_id b n → u = t) →
      (BoolectorTerm.ctor E b n c o is_sym).1.op = t.op ∧
      (BoolectorTerm.ctor E b n c o is_sym).1.children = t.children ∧
      (BoolectorTerm.ctor E b n c o is_sym).1.node = t.node) := by
  obtain ⟨pre, t, post, hc, ht, hpost⟩ := List.exists_last_of_exists
    (fun t : BoolectorTerm Node Op =>
      E.boolector_get_node_id b t.node = E.boolector_get_node_id b n) c h
  have hmem : t ∈ c := by simp [hc]
  have hR : (BoolectorTerm.ctor E b n c o is_sym).1 = ⟨t.node, t.children, t.op, is_sym⟩ := by
    rw [BoolectorTerm.ctor_fst]
    conv_lhs => rw [hc]
    rw [BoolectorTerm.ctor_loop_last_match E b n t post ht hpost pre]
  refine ⟨⟨t, hmem, ht, by simp [hR]⟩, ?_⟩
  intro t0 _ _ huniq
  have e : t = t0 := huniq t hmem ht
  subst e
  simp [hR]

/-- Witness of C4: `AND` is requested on the children `x` and `x`, and the solver returns
node 1, the node of `x`. -/
theorem C4_rewrite_absorption_witness :
    (∃ t ∈ [bt_x, bt_x], exBtor.boolector_get_node_id exSymbols t.node
        = exBtor.boolector_get_node_id exSymbols 1 ∧
      (BoolectorTerm.ctor exBtor exSymbols 1 [bt_x, bt_x] (some "and") false).1.op = t.op ∧
      (BoolectorTerm.ctor exBtor exSymbols 1 [bt_x, bt_x] (some "and") false).1.children
        = t.children ∧
      (BoolectorTerm.ctor exBtor exSymbols 1 [bt_x, bt_x] (some "and") false).1.node = t.node) ∧
    (∀ t ∈ [bt_x, bt_x], exBtor.boolector_get_node_id exSymbols t.node
        = exBtor.boolector_get_node_id exSymbols 1 →
      (∀ u ∈ [bt_x, bt_x], exBtor.boolector_get_node_id exSymbols u.node
        = exBtor.boolector_get_node_id exSymbols 1 → u = t) →
      (BoolectorTerm.ctor exBtor exSymbols 1 [bt_x, bt_x] (some "and") false).1.op = t.op ∧
      (BoolectorTerm.ctor exBtor exSymbols 1 [bt_x, bt_x] (some "and") false).1.children
        = t.children ∧
      (BoolectorTerm.ctor exBtor exSymbols 1 [bt_x, bt_x] (some "and") false).1.node = t.node) :=
  C4_rewrite_absorption exBtor exSymbols 1 [bt_x, bt_x] (some "and") false
    ⟨bt_x, by simp, rfl⟩

/-- Counterexample to C5: `OR` is requested on the children `AND(x, y)` and `AND(y, x)`,
which both sit on node 3, and the solver returns node 3.  The constructed term does not
have the children of the first such child, `AND(x, y)`: it has those of `AND(y, x)`. -/
theorem C5_tie_break_counterexample :
    exBtor.boolector_get_node_id exSymbols bt_and_xy.node
      = exBtor.boolector_get_node_id exSymbols 3 ∧
    exBtor.boolector_get_node_id exSymbols bt_and_yx.node
      = exBtor.boolector_get_node_id exSymbols 3 ∧
    (BoolectorTerm.ctor exBtor exSymbols 3 [bt_and_xy, bt_and_yx] (some "or") false).1.children
      ≠ bt_and_xy.children ∧
    ((BoolectorTerm.ctor exBtor exSymbols 3 [bt_and_xy, bt_and_yx] (some "or") false).1.children.map
      BoolectorTerm.node) = [2, 1] := by
  refine ⟨rfl, rfl, ?_, rfl⟩
  intro e
  exact absurd (congrArg (List.map BoolectorTerm.node) e) (by decide)

/-- C5, amended.  When children of `c` have the same node id as the new node `n`, the
constructed term adopts the op, the children and the node of the last such child in
operand order: of the child `t` where `c` is `pre`, then `t`, then `post`, and no child
in `post` has the node id of `n`. -/
theorem C5_last_match_wins (E : BtorEnv B Node Op) (b : B) (n : Node)
    (pre : List (BoolectorTerm Node Op)) (t : BoolectorTerm Node Op)
    (post : List (BoolectorTerm Node Op)) (o : Op) (is_sym : Bool)
    (ht : E.boolector_get_node_id b t.node = E.boolector_get_node_id b n)
    (hpost : ∀ u ∈ post, E.boolector_get_node_id b u.node ≠ E.boolector_get_node_id b n) :
    (BoolectorTerm.ctor E b n (pre ++ t :: post) o is_sym).1.op = t.op ∧
    (BoolectorTerm.ctor E b n (pre ++ t :: post) o is_sym).1.children = t.children ∧
    (BoolectorTerm.ctor E b n (pre ++ t :: post) o is_sym).1.node = t.node := by
  rw [BoolectorTerm.ctor_fst, BoolectorTerm.ctor_loop_last_match E b n t post ht hpost pre]
  simp

/-- Witness of C5, amended: the children `AND(x, y)` and `AND(y, x)`, both on node 3. -/
theorem C5_last_match_wins_witness :
    (BoolectorTerm.ctor exBtor exSymbols 3 ([bt_and_xy] ++ bt_and_yx :: []) (some "or")
      false).1.op = bt_and_yx.op ∧
    (BoolectorTerm.ctor exBtor exSymbols 3 ([bt_and_xy] ++ bt_and_yx :: []) (some "or")
      false).1.children = bt_and_yx.children ∧
    (BoolectorTerm.ctor exBtor exSymbols 3 ([bt_and_xy] ++ bt_and_yx :: []) (some "or")
      false).1.node = bt_and_yx.node :=
  C5_last_match_wins exBtor exSymbols 3 [bt_and_xy] bt_and_yx [] (some "or") false rfl
    (by simp)

/-- Counterexample to C6: `x` is a leaf with a null op on node 1, its negation `NOT(x)` is
on node -1, and the solver returns node 1 for `NOT` applied to `NOT(x)`.  The constructed
term has op `not` and the child `NOT(x)`, not the null op and the empty children of `x`. -/
theorem C6_double_negation_counterexample :
    bt_x.op = none ∧ bt_x.children = [] ∧
    exBtor.boolector_get_node_id exSymbols 1
      = exBtor.boolector_get_node_id exSymbols bt_x.node ∧
    exBtor.boolector_get_node_id exSymbols bt_not_x.node
      ≠ exBtor.boolector_get_node_id exSymbols 1 ∧
    (BoolectorTerm.ctor exBtor exSymbols 1 [bt_not_x] (some "not") false).1.op ≠ bt_x.op ∧
    (BoolectorTerm.ctor exBtor exSymbols 1 [bt_not_x] (some "not") false).1.children
      ≠ bt_x.children := by
  refine ⟨rfl, rfl, rfl, by decide, by decide, ?_⟩
  intro e
  exact absurd (congrArg List.length e) (by decide)

/-- C6, amended.  For every term `x`, if the solver returns for `NOT` applied to the single
child `NOT(x)` a node `n` with the node id of `x`, while the node `nn` of the child
`NOT(x)` has another id, the constructed term keeps the requested op `NOT`, the requested
children `[NOT(x)]` and the node `n`: the constructor compares `n` with the nodes of the
children only, not with the node of the grandchild `x`. -/
theorem C6_double_negation_amended (E : BtorEnv B Node Op) (b : B) (n nn : Node)
    (x : BoolectorTerm Node Op) (op_not : Op) (f is_sym : Bool)
    (_hx : E.boolector_get_node_id b n = E.boolector_get_node_id b x.node)
    (hnn : E.boolector_get_node_id b nn ≠ E.boolector_get_node_id b n) :
    (BoolectorTerm.ctor E b n [⟨nn, [x], op_not, f⟩] op_not is_sym).1.op = op_not ∧
    (BoolectorTerm.ctor E b n [⟨nn, [x], op_not, f⟩] op_not is_sym).1.children
      = [⟨nn, [x], op_not, f⟩] ∧
    (BoolectorTerm.ctor E b n [⟨nn, [x], op_not, f⟩] op_not is_sym).1.node = n := by
  rw [BoolectorTerm.ctor_fst, BoolectorTerm.ctor_loop_no_match E b n _ _ (by simpa using hnn)]
  simp

/-- Witness of C6, amended: `x` on node 1, `NOT(x)` on node -1, and node 1 returned for
`NOT(NOT(x))`. -/
theorem C6_double_negation_amended_witness :
    (BoolectorTerm.ctor exBtor exSymbols 1 [⟨-1, [bt_x], some "not", false⟩] (some "not")
      false).1.op = some "not" ∧
    (BoolectorTerm.ctor exBtor exSymbols 1 [⟨-1, [bt_x], some "not", false⟩] (some "not")
      false).1.children = [⟨-1, [bt_x], some "not", false⟩] ∧
    (BoolectorTerm.ctor exBtor exSymbols 1 [⟨-1, [bt_x], some "not", false⟩] (some "not")
      false).1.node = 1 :=
  C6_double_negation_amended exBtor exSymbols 1 (-1) bt_x (some "not") false false rfl
    (by decide)

/-- C7. If node `n` has the symbol `s`, constructing a term on `n`, with any op and
children, leaves the solver state as it is: the symbol of `n` is `s` and the symbol of
every node is unchanged; and after a second construction on `n` the symbol of `n` is
still `s`. -/
theorem C7_symbol_once (E : BtorEnv B Node Op) (b : B) (n : Node) (s : String)
    (c : List (BoolectorTerm Node Op)) (o : Op) (is_sym : Bool)
    (h : E.boolector_get_symbol b n = some s) :
    E.boolector_get_symbol (BoolectorTerm.ctor E b n c o is_sym).2 n = some s ∧
    (∀ m : Node, E.boolector_get_symbol (BoolectorTerm.ctor E b n c o is_sym).2 m
      = E.boolector_get_symbol b m) ∧
    (BoolectorTerm.ctor E b n c o is_sym).2 = b ∧
    (∀ (c2 : List (BoolectorTerm Node Op)) (o2 : Op) (is_sym2 : Bool),
      E.boolector_get_symbol
        (BoolectorTerm.ctor E (BoolectorTerm.ctor E b n c o is_sym).2 n c2 o2 is_sym2).2 n
        = some s) := by
  have key : ∀ (c : List (BoolectorTerm Node Op)) (o : Op) (is_sym : Bool),
      (BoolectorTerm.ctor E b n c o is_sym).2 = b := by
    intro c o is_sym
    simp [BoolectorTerm.ctor, h]
  refine ⟨by rw [key]; exact h, fun m => by rw [key], key c o is_sym, ?_⟩
  intro c2 o2 is_sym2
  rw [key c o is_sym, key c2 o2 is_sym2]
  exact h

/-- Witness of C7: node 1 has the symbol `x`; `NOT` applied to `NOT(x)` is constructed on
node 1. -/
theorem C7_symbol_once_witness :
    exBtor.boolector_get_symbol exSymbols 1 = some "x" ∧
    exBtor.boolector_get_symbol
      (BoolectorTerm.ctor exBtor exSymbols 1 [bt_not_x] (some "not") false).2 1 = some "x" :=
  ⟨rfl, (C7_symbol_once exBtor exSymbols 1 "x" [bt_not_x] (some "not") false rfl).1⟩

/-! ## Rendering of logging terms -/

/-- C8. For a logging term built in structural mode with a non-null operator `o` and
children whose `to_string` calls return the strings `ss`, in order, `to_string` returns
`"(" + o.to_string()`, then every string of `ss` preceded by one space, then `")"`, and
that string is the cached representation after the call. -/
theorem C8_structural_rendering (I : Env Op Srt K W) (w : W) (s : Srt) (o : Op)
    (c : List (LoggingTerm Op Srt W)) (ss : List String)
    (hop : I.op_is_null o = false)
    (hc : List.Forall₂ (fun ch str => (LoggingTerm.to_string I ch).1 = some str) c ss) :
    (LoggingTerm.to_string I (LoggingTerm.ctor w s o c)).1
      = some ("(" ++ I.op_to_string o ++ spaced ss ++ ")") ∧
    (LoggingTerm.to_string I (LoggingTerm.ctor w s o c)).2.repr
      = "(" ++ I.op_to_string o ++ spaced ss ++ ")" := by
  simp [LoggingTerm.ctor, LoggingTerm.to_string, hop, Assert,
    LoggingTerm.to_string_children_ok I c ss hc]

/-- Witness of C8: `AND(x, y)` over the leaf symbols `x` and `y` renders as `(and x y)`. -/
theorem C8_structural_rendering_witness :
    (LoggingTerm.to_string exEnv (LoggingTerm.ctor ⟨3, none⟩ (2, 8) (some "and") [ex_x, ex_y])).1
      = some "(and x y)" ∧
    (LoggingTerm.to_string exEnv
      (LoggingTerm.ctor ⟨3, none⟩ (2, 8) (some "and") [ex_x, ex_y])).2.repr = "(and x y)" :=
  C8_structural_rendering exEnv ⟨3, none⟩ (2, 8) (some "and") [ex_x, ex_y] ["x", "y"] rfl
    (List.Forall₂.cons rfl (List.Forall₂.cons rfl List.Forall₂.nil))

/-- C9. For a logging term on which `to_string()` returns the string `s`, a second call on
the term returns `s` again, and the cached representation after the second call is the
one after the first call; the second call changes no field of the term. -/
theorem C9_to_string_idempotent (I : Env Op Srt K W) (t : LoggingTerm Op Srt W) (s : String)
    (h : (LoggingTerm.to_string I t).1 = some s) :
    (LoggingTerm.to_string I (LoggingTerm.to_string I t).2).1 = some s ∧
    (LoggingTerm.to_string I (LoggingTerm.to_string I t).2).2.repr
      = (LoggingTerm.to_string I t).2.repr ∧
    (LoggingTerm.to_string I (LoggingTerm.to_string I t).2).2
      = (LoggingTerm.to_string I t).2 := by
  by_cases hr : t.repr = ""
  · by_cases hval : (I.op_is_null t.op && (I.op_is_null t.op && I.is_value t.wrapped_term)) = true
    · simp only [Bool.and_eq_true] at hval
      have e := LoggingTerm.to_string_value I t hr hval.1 hval.2.2
      rw [e] at h ⊢
      simp only [] at h ⊢
      rw [e]
      exact ⟨h, rfl, rfl⟩
    · obtain ⟨w, so, o, c, repr, raw, sy, pa⟩ := t
      simp only [] at hr hval
      subst hr
      have hval2 : (I.op_is_null o && (I.op_is_null o && I.is_value w)) = false := by
        simpa using hval
      simp only [LoggingTerm.to_string, ne_eq, not_true_eq_false, if_false, hval2,
        Bool.false_eq_true] at h ⊢
      cases ha : Assert (!(I.op_is_null o)) with
      | none => simp [ha] at h
      | some u =>
        simp only [ha] at h ⊢
        rcases hch : LoggingTerm.to_string_children I c ("(" ++ I.op_to_string o)
          with ⟨ok, r, c2⟩
        cases ok with
        | false => simp [hch] at h
        | true =>
          simp only [hch] at h ⊢
          have e := LoggingTerm.to_string_cached I
            (⟨w, so, o, c2, r ++ ")", raw, sy, pa⟩ : LoggingTerm Op Srt W)
            (String.append_paren_ne_empty r)
          rw [e]
          exact ⟨h, rfl, rfl⟩
  · have e := LoggingTerm.to_string_cached I t hr
    rw [e] at h ⊢
    simp only [] at h ⊢
    rw [e]
    exact ⟨h, rfl, rfl⟩

/-- Witness of C9: `AND(x, y)`, rendered twice. -/
theorem C9_to_string_idempotent_witness :
    (LoggingTerm.to_string exEnv ex_and).1 = some "(and x y)" ∧
    (LoggingTerm.to_string exEnv (LoggingTerm.to_string exEnv ex_and).2).1
      = some "(and x y)" :=
  ⟨rfl, (C9_to_string_idempotent exEnv ex_and "(and x y)" rfl).1⟩

/-- Counterexample to C10: the value 5 of sort bit-vector of width 8 has a null operator, no
representation and a wrapped term that is a value; `to_string()` returns the string of
the value-printing routine, and after the call the cached representation is still
empty: it does not hold that string. -/
theorem C10_value_cached_counterexample :
    exEnv.op_is_null ex_five.op = true ∧ ex_five.repr = "" ∧
    exEnv.is_value ex_five.wrapped_term = true ∧
    (LoggingTerm.to_string exEnv ex_five).1 = some "#b00000101" ∧
    (LoggingTerm.to_string exEnv ex_five).2.repr = "" ∧
    (LoggingTerm.to_string exEnv ex_five).2.repr ≠ "#b00000101" := by
  refine ⟨rfl, rfl, rfl, rfl, rfl, by decide⟩

/-- C10, amended.  For a logging term with a null operator, no representation and a wrapped
term that reports `is_value()`, `to_string()` returns the wrapped term's
`print_value_as` of the kind of the recorded sort and leaves the term as it is: the
cached representation stays empty, and a second call returns the string of the
value-printing routine again. -/
theorem C10_value_rendering_amended (I : Env Op Srt K W) (t : LoggingTerm Op Srt W)
    (hr : t.repr = "") (hop : I.op_is_null t.op = true)
    (hv : I.is_value t.wrapped_term = true) :
    (LoggingTerm.to_string I t).1
      = some (I.print_value_as t.wrapped_term (I.get_sort_kind t.sort)) ∧
    (LoggingTerm.to_string I t).2 = t ∧
    (LoggingTerm.to_string I t).2.repr = "" ∧
    (LoggingTerm.to_string I (LoggingTerm.to_string I t).2).1
      = some (I.print_value_as t.wrapped_term (I.get_sort_kind t.sort)) := by
  have e := LoggingTerm.to_string_value I t hr hop hv
  refine ⟨by rw [e], by rw [e], by rw [e]; exact hr, ?_⟩
  rw [e]
  simp only []
  rw [e]

/-- Witness of C10, amended: the value 5 of sort bit-vector of width 8. -/
theorem C10_value_rendering_amended_witness :
    (LoggingTerm.to_string exEnv ex_five).1 = some "#b00000101" ∧
    (LoggingTerm.to_string exEnv ex_five).2 = ex_five ∧
    (LoggingTerm.to_string exEnv ex_five).2.repr = "" ∧
    (LoggingTerm.to_string exEnv (LoggingTerm.to_string exEnv ex_five).2).1
      = some "#b00000101" :=
  C10_value_rendering_amended exEnv ex_five rfl rfl rfl

/-! ## Classification of logging terms -/

/-- C11. For a logging term built with the symbol constructor with a null operator: if the
is-symbol flag is true and the kind of the sort is not `FUNCTION`, `is_symbolic_const()`
and `is_symbol()` are true; if the flag is false, `is_param()` and `is_symbol()` are
true and `is_symbolic_const()` is false. -/
theorem C11_classification (I : Env Op Srt K W) (w : W) (s : Srt) (o : Op)
    (c : List (LoggingTerm Op Srt W)) (r : String) (hop : I.op_is_null o = true) :
    (I.kind_eq (I.get_sort_kind s) I.FUNCTION = false →
      LoggingTerm.is_symbolic_const I (LoggingTerm.ctor_repr w s o c r true) = true ∧
      LoggingTerm.is_symbol (LoggingTerm.ctor_repr w s o c r true) = true) ∧
    (LoggingTerm.is_param I (LoggingTerm.ctor_repr w s o c r false) = true ∧
      LoggingTerm.is_symbol (LoggingTerm.ctor_repr w s o c r false) = true ∧
      LoggingTerm.is_symbolic_const I (LoggingTerm.ctor_repr w s o c r false) = false) := by
  refine ⟨?_, ?_⟩
  · intro hk
    simp [LoggingTerm.is_symbolic_const, LoggingTerm.is_symbol, LoggingTerm.ctor_repr, hk]
  · simp [LoggingTerm.is_param, LoggingTerm.is_symbolic_const, LoggingTerm.is_symbol,
      LoggingTerm.ctor_repr, hop]

/-- Witness of C11: the symbol `x` and the parameter `p`, of sort bit-vector of width 8. -/
theorem C11_classification_witness :
    (exEnv.kind_eq (exEnv.get_sort_kind (2, 8)) exEnv.FUNCTION = false →
      LoggingTerm.is_symbolic_const exEnv (LoggingTerm.ctor_repr ⟨1, none⟩ (2, 8) none [] "x" true)
        = true ∧
      LoggingTerm.is_symbol (LoggingTerm.ctor_repr (⟨1, none⟩ : ExTerm) (2, 8)
        (none : Option String) [] "x" true) = true) ∧
    (LoggingTerm.is_param exEnv (LoggingTerm.ctor_repr ⟨1, none⟩ (2, 8) none [] "x" false)
        = true ∧
      LoggingTerm.is_symbol (LoggingTerm.ctor_repr (⟨1, none⟩ : ExTerm) (2, 8)
        (none : Option String) [] "x" false) = true ∧
      LoggingTerm.is_symbolic_const exEnv
        (LoggingTerm.ctor_repr ⟨1, none⟩ (2, 8) none [] "x" false) = false) :=
  C11_classification exEnv ⟨1, none⟩ (2, 8) none [] "x" rfl

/-- C12. `LoggingTerm::is_value()` is true exactly when the recorded operator is null and
the wrapped term reports `is_value()`; a term with a non-null recorded operator is no
value, whatever its wrapped term reports. -/
theorem C12_value_guard (I : Env Op Srt K W) (t : LoggingTerm Op Srt W) :
    (LoggingTerm.is_value I t = true ↔
      (I.op_is_null t.op = true ∧ I.is_value t.wrapped_term = true)) ∧
    (I.op_is_null t.op = false → LoggingTerm.is_value I t = false) := by
  refine ⟨by simp [LoggingTerm.is_value], ?_⟩
  intro h
  simp [LoggingTerm.is_value, h]

/-! ## Rendering of symbols, and failure -/

/-- Counterexample to C13: the symbol constructor is given a null operator, no children and
the empty string as representation, on a wrapped term that is no value.  The call of
`to_string()` does not return the supplied string: it fails on the assertion. -/
theorem C13_symbol_repr_counterexample :
    exEnv.op_is_null (none : Option String) = true ∧
    (LoggingTerm.to_string exEnv
      (LoggingTerm.ctor_repr ⟨1, none⟩ (2, 8) none [] "" true)).1 = none ∧
    (LoggingTerm.to_string exEnv
      (LoggingTerm.ctor_repr ⟨1, none⟩ (2, 8) none [] "" true)).1 ≠ some "" := by
  refine ⟨rfl, rfl, by decide⟩

/-- C13, amended.  For a logging term built with the symbol constructor from any wrapped
term, sort, operator and children and a representation string `r` that is not empty, the
first and every later call of `to_string()` returns `r` and leaves the term as it is. -/
theorem C13_symbol_repr_amended (I : Env Op Srt K W) (w : W) (s : Srt) (o : Op)
    (c : List (LoggingTerm Op Srt W)) (r : String) (is_sym : Bool) (hr : r ≠ "") (n : Nat) :
    LoggingTerm.to_string I
        ((fun u => (LoggingTerm.to_string I u).2)^[n] (LoggingTerm.ctor_repr w s o c r is_sym))
      = (some r, LoggingTerm.ctor_repr w s o c r is_sym) := by
  have e : LoggingTerm.to_string I (LoggingTerm.ctor_repr w s o c r is_sym)
      = (some r, LoggingTerm.ctor_repr w s o c r is_sym) :=
    LoggingTerm.to_string_cached I (LoggingTerm.ctor_repr w s o c r is_sym) hr
  have hfix : ∀ k : Nat,
      (fun u => (LoggingTerm.to_string I u).2)^[k] (LoggingTerm.ctor_repr w s o c r is_sym)
        = LoggingTerm.ctor_repr w s o c r is_sym := by
    intro k
    induction k with
    | zero => rfl
    | succ k ih => rw [Function.iterate_succ_apply', ih, e]
  rw [hfix n, e]

/-- Witness of C13, amended: the symbol `x` with the representation `x`, at its third
call. -/
theorem C13_symbol_repr_amended_witness :
    LoggingTerm.to_string exEnv
        ((fun u => (LoggingTerm.to_string exEnv u).2)^[2]
          (LoggingTerm.ctor_repr ⟨1, none⟩ (2, 8) none [] "x" true))
      = (some "x", LoggingTerm.ctor_repr ⟨1, none⟩ (2, 8) none [] "x" true) :=
  C13_symbol_repr_amended exEnv ⟨1, none⟩ (2, 8) none [] "x" true (by decide) 2

/-- C14. For a logging term with no cached representation, a null operator and a wrapped
term that is no value, `to_string()` fails on `Assert(!op.is_null())` instead of
returning a string, and the term after the failed call is the term before it: no field
has changed. -/
theorem C14_loud_failure (I : Env Op Srt K W) (t : LoggingTerm Op Srt W)
    (hr : t.repr = "") (hop : I.op_is_null t.op = true)
    (hv : I.is_value t.wrapped_term = false) :
    (LoggingTerm.to_string I t).1 = none ∧ (LoggingTerm.to_string I t).2 = t ∧
    (LoggingTerm.to_string I t).2.repr = t.repr := by
  obtain ⟨w, s, o, c, repr, raw, sy, pa⟩ := t
  simp only [] at hr hop hv
  subst hr
  simp [LoggingTerm.to_string, hop, hv, Assert]

/-- Witness of C14: a term built in structural mode with a null operator on a wrapped term
that is no value. -/
theorem C14_loud_failure_witness :
    (LoggingTerm.to_string exEnv ex_broken).1 = none ∧
    (LoggingTerm.to_string exEnv ex_broken).2 = ex_broken ∧
    (LoggingTerm.to_string exEnv ex_broken).2.repr = ex_broken.repr :=
  C14_loud_failure exEnv ex_broken rfl rfl rfl

/-! ## The recorded shape is immutable; iteration over the children -/

/-- C15. The operations of a logging term leave its recorded operator, sort, children list,
wrapped term and flags as they are; only the two string caches change.  The members
`compare`, `get_op`, `get_sort`, `is_symbol`, `is_param`, `is_symbolic_const`,
`is_value`, `hash`, `to_int` and `print_value_as` write no field: they are functions of
the term that return a value only.  After `to_string` and after `to_raw_string` the term
has the same shape (all fields but the string caches, in the term and in the terms of
its children list), in particular the same wrapped term, sort, operator, flags and
number of children; `to_raw_string` leaves the children list itself as it is; `begin`
and `end` give positions in the recorded children list. -/
theorem C15_shape_immutable (I : Env Op Srt K W) (t : LoggingTerm Op Srt W) :
    (LoggingTerm.shape (LoggingTerm.to_string I t).2 = LoggingTerm.shape t ∧
      (LoggingTerm.to_string I t).2.wrapped_term = t.wrapped_term ∧
      (LoggingTerm.to_string I t).2.sort = t.sort ∧
      (LoggingTerm.to_string I t).2.op = t.op ∧
      (LoggingTerm.to_string I t).2.is_sym = t.is_sym ∧
      (LoggingTerm.to_string I t).2.is_par = t.is_par ∧
      (LoggingTerm.to_string I t).2.children.length = t.children.length) ∧
    (LoggingTerm.shape (LoggingTerm.to_raw_string I t).2 = LoggingTerm.shape t ∧
      (LoggingTerm.to_raw_string I t).2.wrapped_term = t.wrapped_term ∧
      (LoggingTerm.to_raw_string I t).2.sort = t.sort ∧
      (LoggingTerm.to_raw_string I t).2.op = t.op ∧
      (LoggingTerm.to_raw_string I t).2.is_sym = t.is_sym ∧
      (LoggingTerm.to_raw_string I t).2.is_par = t.is_par ∧
      (LoggingTerm.to_raw_string I t).2.children = t.children ∧
      (LoggingTerm.to_raw_string I t).2.repr = t.repr) ∧
    ((LoggingTerm.begin t).vec = t.children ∧ (LoggingTerm.end_ t).vec = t.children) := by
  refine ⟨⟨LoggingTerm.to_string_shape I t, ?_⟩, ?_, rfl, rfl⟩
  · have h := LoggingTerm.shape_fields _ _ (LoggingTerm.to_string_shape I t)
    exact ⟨h.1, h.2.1, h.2.2.1, h.2.2.2.1, h.2.2.2.2.1, h.2.2.2.2.2⟩
  · obtain ⟨w, s, o, c, r, raw, sy, pa⟩ := t
    unfold LoggingTerm.to_raw_string
    split <;> simp [LoggingTerm.shape]

/-- C16. For a logging term with `n` recorded children, the iterator of `begin()`
incremented `k` times, for `k < n`, dereferences to the child at position `k` and is
unequal to the iterator of `end()`; after `n` increments it is equal to it; and the
dereferences at the positions `0` to `n - 1` are the recorded children, in order. -/
theorem C16_child_iteration (t : LoggingTerm Op Srt W) :
    (∀ (k : Nat) (hk : k < t.children.length),
      LoggingTermIter.deref (LoggingTermIter.incr^[k] (LoggingTerm.begin t))
        = some (t.children.get ⟨k, hk⟩) ∧
      LoggingTermIter.equal (LoggingTermIter.incr^[k] (LoggingTerm.begin t))
        (LoggingTerm.end_ t) = false ∧
      LoggingTermIter.ne (LoggingTermIter.incr^[k] (LoggingTerm.begin t))
        (LoggingTerm.end_ t) = true) ∧
    LoggingTermIter.equal (LoggingTermIter.incr^[t.children.length] (LoggingTerm.begin t))
      (LoggingTerm.end_ t) = true ∧
    (List.range t.children.length).map
        (fun k => LoggingTermIter.deref (LoggingTermIter.incr^[k] (LoggingTerm.begin t)))
      = t.children.map some := by
  refine ⟨?_, ?_, ?_⟩
  · intro k hk
    rw [LoggingTermIter.iterate_incr]
    simp only [LoggingTerm.begin, LoggingTerm.end_, LoggingTermIter.deref,
      LoggingTermIter.equal, LoggingTermIter.ne, Nat.zero_add]
    refine ⟨?_, ?_, ?_⟩
    · rw [List.getElem?_eq_getElem hk]
      rfl
    · simpa using Nat.ne_of_lt hk
    · simpa using Nat.ne_of_lt hk
  · rw [LoggingTermIter.iterate_incr]
    simp [LoggingTerm.begin, LoggingTerm.end_, LoggingTermIter.equal]
  · apply List.ext_getElem
    · simp
    · intro k h1 h2
      simp only [List.length_map, List.length_range] at h1
      simp [LoggingTermIter.iterate_incr, LoggingTerm.begin, LoggingTermIter.deref,
        List.getElem?_eq_getElem h1]

/-! ## The symbol and the flag set by the `BoolectorTerm` constructor -/

/-- C17, the code at the failing input: `AND` is requested on the children 5 and 5, a
constant on node 7, which has no symbol, and the solver returns node 7.  The children
list is not empty and node 7 carries no symbol, so the constructor sets a symbol on node
7; the claim's text, built from the requested operator and the supplied children, is
`(and 5 5)`, while the symbol the constructor sets is `(null 5 5)`: the text is built
from the member `op`, which the loop has overwritten with the null operator of the
adopted child, and from the supplied children. -/
theorem C17_symbol_text_failing_input :
    [bt_five, bt_five] ≠ [] ∧
    exBtorConst.boolector_get_symbol exSymbols 7 = none ∧
    exBtorConst.boolector_get_node_id exSymbols bt_five.node
      = exBtorConst.boolector_get_node_id exSymbols 7 ∧
    (BoolectorTerm.ctor exBtorConst exSymbols 7 [bt_five, bt_five] (some "and") false).1.op
      = none ∧
    "(" ++ exBtorConst.op_to_string (some "and")
        ++ spaced ([bt_five, bt_five].map (exBtorConst.to_string exSymbols)) ++ ")"
      = "(and 5 5)" ∧
    exBtorConst.boolector_get_symbol
      (BoolectorTerm.ctor exBtorConst exSymbols 7 [bt_five, bt_five] (some "and") false).2 7
      = some "(null 5 5)" ∧
    exBtorConst.boolector_get_symbol
      (BoolectorTerm.ctor exBtorConst exSymbols 7 [bt_five, bt_five] (some "and") false).2 7
      ≠ some "(and 5 5)" := by
  refine ⟨List.cons_ne_nil _ _, rfl, rfl, rfl, rfl, rfl, by decide⟩

/-- C18, the code at the failing input: `AND` is requested with the flag `is_sym` false on
the children `x` and `x`, and the solver returns node 1, the node of `x`, whose `is_sym`
is true.  The constructed term has the node, the op and the children of `x`, but its
member `is_sym` is false: the assignment in the loop wrote the parameter. -/
theorem C18_is_sym_not_adopted :
    exBtor.boolector_get_node_id exSymbols 1
      = exBtor.boolector_get_node_id exSymbols bt_x.node ∧
    bt_x.is_sym = true ∧
    (BoolectorTerm.ctor exBtor exSymbols 1 [bt_x, bt_x] (some "and") false).1.node = bt_x.node ∧
    (BoolectorTerm.ctor exBtor exSymbols 1 [bt_x, bt_x] (some "and") false).1.op = bt_x.op ∧
    (BoolectorTerm.ctor exBtor exSymbols 1 [bt_x, bt_x] (some "and") false).1.is_sym = false := by
  refine ⟨rfl, rfl, rfl, rfl, rfl⟩

/-- C20. For a construction in which no child has the node id of the new node `n`, the
constructed term has exactly the node, the children list, the operator and the flag given
to the constructor; so has every construction with an empty children list. -/
theorem C20_no_spurious_reconciliation (E : BtorEnv B Node Op) (b : B) (n : Node)
    (c : List (BoolectorTerm Node Op)) (o : Op) (is_sym : Bool)
    (hno : ∀ u ∈ c, E.boolector_get_node_id b u.node ≠ E.boolector_get_node_id b n) :
    ((BoolectorTerm.ctor E b n c o is_sym).1.node = n ∧
      (BoolectorTerm.ctor E b n c o is_sym).1.op = o ∧
      (BoolectorTerm.ctor E b n c o is_sym).1.children = c ∧
      (BoolectorTerm.ctor E b n c o is_sym).1.is_sym = is_sym) ∧
    (BoolectorTerm.ctor E b n [] o is_sym).1 = ⟨n, [], o, is_sym⟩ := by
  rw [BoolectorTerm.ctor_no_match E b n c o is_sym hno,
    BoolectorTerm.ctor_no_match E b n [] o is_sym (by simp)]
  simp

/-- Witness of C20: `AND(x, y)` constructed on node 3. -/
theorem C20_no_spurious_reconciliation_witness :
    ((BoolectorTerm.ctor exBtor exSymbols 3 [bt_x, bt_y] (some "and") false).1.node = 3 ∧
      (BoolectorTerm.ctor exBtor exSymbols 3 [bt_x, bt_y] (some "and") false).1.op
        = some "and" ∧
      (BoolectorTerm.ctor exBtor exSymbols 3 [bt_x, bt_y] (some "and") false).1.children
        = [bt_x, bt_y] ∧
      (BoolectorTerm.ctor exBtor exSymbols 3 [bt_x, bt_y] (some "and") false).1.is_sym
        = false) ∧
    (BoolectorTerm.ctor exBtor exSymbols 3 [] (some "and") false).1
      = ⟨3, [], some "and", false⟩ :=
  C20_no_spurious_reconciliation exBtor exSymbols 3 [bt_x, bt_y] (some "and") false
    (by
      intro u hu
      simp only [List.mem_cons, List.mem_singleton, List.not_mem_nil, or_false] at hu
      rcases hu with rfl | rfl <;> decide)

/-! ## `compare` is an equivalence relation -/

/-- C19. When the equality of operators, the equality of sorts and the compare of the
wrapped terms are equivalence relations, `LoggingTerm::compare` is an equivalence relation
on (non-null) logging terms, children being logging terms themselves: `compare(a, a)`
is true, `compare(a, b)` implies `compare(b, a)`, and `compare(a, b)` with
`compare(b, d)` implies `compare(a, d)`. -/
theorem C19_compare_equivalence (I : Env Op Srt K W)
    (hor : ∀ o, I.op_eq o o = true)
    (hos : ∀ o o2, I.op_eq o o2 = true → I.op_eq o2 o = true)
    (hot : ∀ o o2 o3, I.op_eq o o2 = true → I.op_eq o2 o3 = true → I.op_eq o o3 = true)
    (hsr : ∀ s, I.sort_eq s s = true)
    (hss : ∀ s s2, I.sort_eq s s2 = true → I.sort_eq s2 s = true)
    (hst : ∀ s s2 s3, I.sort_eq s s2 = true → I.sort_eq s2 s3 = true → I.sort_eq s s3 = true)
    (hwr : ∀ w, I.compare w w = true)
    (hws : ∀ w w2, I.compare w w2 = true → I.compare w2 w = true)
    (hwt : ∀ w w2 w3, I.compare w w2 = true → I.compare w2 w3 = true → I.compare w w3 = true) :
    (∀ a : LoggingTerm Op Srt W, LoggingTerm.compare I a (some a) = true) ∧
    (∀ a b : LoggingTerm Op Srt W, LoggingTerm.compare I a (some b) = true →
      LoggingTerm.compare I b (some a) = true) ∧
    (∀ a b d : LoggingTerm Op Srt W, LoggingTerm.compare I a (some b) = true →
      LoggingTerm.compare I b (some d) = true → LoggingTerm.compare I a (some d) = true) :=
  ⟨LoggingTerm.compare_refl I hor hsr hwr, LoggingTerm.compare_symm I hos hss hws,
    LoggingTerm.compare_trans I hot hst hwt⟩

/-- Witness of C19: in the environment `exEnv` the three relations are equalities (of
names, of sorts, of node numbers), and `AND(x, y)` compares equal to itself. -/
theorem C19_compare_equivalence_witness :
    LoggingTerm.compare exEnv ex_and (some ex_and) = true :=
  (C19_compare_equivalence exEnv
      (by intro o; simp [exEnv])
      (by intro o o2 h; simp_all [exEnv])
      (by intro o o2 o3 h h2; simp_all [exEnv])
      (by intro s; simp [exEnv])
      (by intro s s2 h; simp_all [exEnv])
      (by intro s s2 s3 h h2; simp_all [exEnv])
      (by intro w; simp [exEnv])
      (by intro w w2 h; simp_all [exEnv])
      (by intro w w2 w3 h h2; simp_all [exEnv])).1 ex_and

end smt
